import Mathlib

/-!
Verification of the boa runtime kernel: property storage and iteration
(builtins/object/iter.rs), heap cells and invocation (builtins/object/gcobject.rs),
construction (exec/new/mod.rs) and the Symbol builtin (builtins/symbol/mod.rs),
shallowly embedded in Lean 4.
-/

set_option autoImplicit false

namespace Boa

/-- Embeds `pub struct Symbol(Option<RcString>, u32)` from builtins/symbol/mod.rs:
an optional description and a numeric identity (called the hash). -/
structure Symbol where
  description : Option String
  hashId : Nat
deriving DecidableEq

namespace Props

/-- Embeds `pub struct Property` (builtins/property, not under src/), modelled from
the spec: either a data slot (value and writable flag) or an accessor slot
(getter and setter), each carrying attribute flags. Payload values are abstract
numeric tokens, since property payloads never influence iteration. -/
inductive Property where
  | dataProp (value : Nat) (writable : Bool) (enumerable : Bool) (configurable : Bool)
  | accessorProp (getter : Nat) (setter : Nat) (enumerable : Bool) (configurable : Bool)
deriving DecidableEq

/-- Model of `std::collections::HashMap` as used by the property containers in
builtins/object: entries live in `capacity` buckets, `insert` places an entry in
bucket `hash k % capacity` (replacing an entry with the same key in place),
and iteration walks the buckets in index order. The `hash` field stands for the
randomly seeded hasher state of the map instance: iteration order is therefore
determined by the hasher and table shape, not by insertion order nor by key
order. -/
structure HashMapModel (κ : Type) (β : Type) where
  capacity : Nat
  hash : κ → Nat
  buckets : List (List (κ × β))

/-- Inserts into a single bucket: replaces the entry with an equal key in place,
otherwise appends at the end of the bucket. -/
def bucketInsert {κ β : Type} [DecidableEq κ] (k : κ) (v : β) :
    List (κ × β) → List (κ × β)
  | [] => [(k, v)]
  | (k0, v0) :: rest =>
    if k0 = k then (k, v) :: rest else (k0, v0) :: bucketInsert k v rest

/-- Fresh empty hash map with a given capacity and hasher state. -/
def HashMapModel.emptyWithHasher {κ β : Type} (capacity : Nat) (hash : κ → Nat) :
    HashMapModel κ β :=
  { capacity := capacity, hash := hash, buckets := List.replicate capacity [] }

/-- Insert a key-value pair, placing it in the bucket selected by the hasher. -/
def HashMapModel.insert {κ β : Type} [DecidableEq κ] (m : HashMapModel κ β)
    (k : κ) (v : β) : HashMapModel κ β :=
  let i := m.hash k % m.capacity
  { m with buckets := m.buckets.set i (bucketInsert k v (m.buckets.getD i [])) }

/-- The sequence an iterator over the map yields: the buckets in index order. -/
def HashMapModel.iterList {κ β : Type} (m : HashMapModel κ β) : List (κ × β) :=
  m.buckets.flatten

/-- Embeds `PropertyKey`: a tagged variant over index, string and symbol keys. -/
inductive PropertyKey where
  | index (i : Nat)
  | string (s : String)
  | symbol (s : Symbol)
deriving DecidableEq

/-- Embeds the property-bearing part of `Object`: the three independent property
containers visible in the iterator types of builtins/object/iter.rs
(`hash_map::Iter<u32, Property>`, `hash_map::Iter<RcString, Property>`,
`hash_map::Iter<RcSymbol, Property>`). -/
structure Object where
  indexed_properties : HashMapModel Nat Property
  properties : HashMapModel String Property
  symbol_properties : HashMapModel Symbol Property

/-- Embeds `pub struct Iter` from builtins/object/iter.rs: the three in-progress
container iterators, each modelled by its remaining entry sequence. -/
structure Iter where
  indexed_properties : List (Nat × Property)
  string_properties : List (String × Property)
  symbol_properties : List (Symbol × Property)

/-- Embeds `Object::iter`: starts a combined iterator over the three containers. -/
def Object.iter (o : Object) : Iter :=
  { indexed_properties := o.indexed_properties.iterList
    string_properties := o.properties.iterList
    symbol_properties := o.symbol_properties.iterList }

/-- Embeds `impl Iterator for Iter` (`fn next`): drain the indexed iterator first,
then the string iterator, then the symbol iterator. -/
def Iter.next (it : Iter) : Option ((PropertyKey × Property) × Iter) :=
  match it.indexed_properties with
  | (key, value) :: rest =>
    some ((PropertyKey.index key, value), { it with indexed_properties := rest })
  | [] =>
    match it.string_properties with
    | (key, value) :: rest =>
      some ((PropertyKey.string key, value), { it with string_properties := rest })
    | [] =>
      match it.symbol_properties with
      | (key, value) :: rest =>
        some ((PropertyKey.symbol key, value), { it with symbol_properties := rest })
      | [] => none

/-- Embeds `impl ExactSizeIterator for Iter` (`fn len`): the sum of the three
container iterator lengths. -/
def Iter.len (it : Iter) : Nat :=
  it.indexed_properties.length + it.string_properties.length
    + it.symbol_properties.length

/-- Repeatedly calls `Iter.next`, collecting the yielded entries; `fuel` bounds
the number of steps. -/
def Iter.drain (fuel : Nat) (it : Iter) : List (PropertyKey × Property) :=
  match fuel with
  | 0 => []
  | fuel + 1 =>
    match Iter.next it with
    | none => []
    | some (kv, it2) => kv :: Iter.drain fuel it2

/-- The full sequence the combined iterator yields: `next` until exhaustion
(`Iter.len` steps always suffice). -/
def Iter.toList (it : Iter) : List (PropertyKey × Property) :=
  Iter.drain (Iter.len it) it

theorem Iter.drain_spec (fuel : Nat) :
    ∀ it : Iter, Iter.len it ≤ fuel →
      Iter.drain fuel it
        = it.indexed_properties.map (fun e => (PropertyKey.index e.1, e.2))
            ++ it.string_properties.map (fun e => (PropertyKey.string e.1, e.2))
            ++ it.symbol_properties.map (fun e => (PropertyKey.symbol e.1, e.2)) := by
  induction fuel with
  | zero =>
    intro it h
    obtain ⟨a, b, c⟩ := it
    simp only [Iter.len, List.length] at h
    have ha : a = [] := List.eq_nil_of_length_eq_zero (by omega)
    have hb : b = [] := List.eq_nil_of_length_eq_zero (by omega)
    have hc : c = [] := List.eq_nil_of_length_eq_zero (by omega)
    subst ha; subst hb; subst hc
    simp [Iter.drain]
  | succ n ih =>
    intro it h
    obtain ⟨a, b, c⟩ := it
    simp only [Iter.len, List.length] at h
    match a with
    | (k, v) :: arest =>
      simp only [Iter.drain, Iter.next, List.map, List.cons_append]
      rw [ih ⟨arest, b, c⟩
        (by simp only [Iter.len, List.length_cons] at h ⊢; omega)]
    | [] =>
      match b with
      | (k, v) :: brest =>
        simp only [Iter.drain, Iter.next, List.map, List.nil_append,
          List.cons_append]
        rw [ih ⟨[], brest, c⟩
          (by simp only [Iter.len, List.length_cons, List.length_nil] at h ⊢; omega)]
        simp
      | [] =>
        match c with
        | (k, v) :: crest =>
          simp only [Iter.drain, Iter.next, List.map, List.nil_append,
            List.cons_append]
          rw [ih ⟨[], [], crest⟩
            (by simp only [Iter.len, List.length_cons, List.length_nil] at h ⊢; omega)]
          simp
        | [] => simp [Iter.drain, Iter.next]

/-- The indexed keys in the order the combined iterator yields them. -/
def indexKeys (o : Object) : List Nat :=
  (Iter.toList (Object.iter o)).filterMap fun e =>
    match e.1 with
    | PropertyKey.index i => some i
    | _ => none

/-- A property used as payload in concrete examples. -/
def sampleProp : Property := Property.dataProp 0 true true true

/-- An object whose indexed container received the insertion sequence 2 then 0,
under a hasher state that maps key 2 to bucket 0 and key 0 to bucket 2 of an
8 bucket table; the string and symbol containers are empty. -/
def c1Object : Object :=
  { indexed_properties :=
      ((HashMapModel.emptyWithHasher 8 (fun k => 10 - k)).insert 2
          sampleProp).insert 0 sampleProp
    properties := HashMapModel.emptyWithHasher 8 (fun _ => 0)
    symbol_properties := HashMapModel.emptyWithHasher 8 (fun _ => 0) }

/-- C1: the claim states that the iteration views always yield indexed keys in
ascending numeric order (and string and symbol keys in insertion order). The
containers are `std::collections::HashMap`, whose iteration order follows the
hasher state; under a hasher state placing key 2 before key 0 the combined
iterator yields the indexed keys as [2, 0], which is not ascending. -/
theorem c1_hashmap_order_not_ascending :
    indexKeys c1Object = [2, 0]
      ∧ ¬ List.Pairwise (fun i j => i ≤ j) (indexKeys c1Object) := by
  constructor
  · rfl
  · decide

/-- C2: the combined iterator yields every indexed entry, then every string
entry, then every symbol entry, and its exact length is the sum of the three
namespace sizes. -/
theorem c2_iter_segmented_with_exact_length (o : Object) :
    Iter.toList (Object.iter o)
        = (HashMapModel.iterList o.indexed_properties).map
              (fun e => (PropertyKey.index e.1, e.2))
            ++ (HashMapModel.iterList o.properties).map
              (fun e => (PropertyKey.string e.1, e.2))
            ++ (HashMapModel.iterList o.symbol_properties).map
              (fun e => (PropertyKey.symbol e.1, e.2))
      ∧ Iter.len (Object.iter o)
          = (HashMapModel.iterList o.indexed_properties).length
              + (HashMapModel.iterList o.properties).length
              + (HashMapModel.iterList o.symbol_properties).length
      ∧ (Iter.toList (Object.iter o)).length = Iter.len (Object.iter o) := by
  refine ⟨?_, rfl, ?_⟩
  · exact Iter.drain_spec _ _ (Nat.le_refl _)
  · rw [Iter.toList, Iter.drain_spec _ _ (Nat.le_refl _)]
    simp [Iter.len, Object.iter]
    omega

end Props

/-- Tests whether `needle` matches at the head of `hay`. -/
def prefixMatch : List Char → List Char → Bool
  | [], _ => true
  | _ :: _, [] => false
  | a :: as2, b :: bs => a == b && prefixMatch as2 bs

/-- Tests whether `needle` occurs anywhere inside `hay`. -/
def infixMatch (needle : List Char) : List Char → Bool
  | [] => prefixMatch needle []
  | b :: bs => prefixMatch needle (b :: bs) || infixMatch needle bs

/-- Substring containment on strings, used to state the error-message claims. -/
def containsSub (needle hay : String) : Bool :=
  infixMatch needle.toList hay.toList

namespace Runtime

/-- Modelled from the spec: the engine value type (builtins/value is not under
src/). Rational values are omitted; array-like values, the arguments object and
TypeError-class thrown values are dedicated variants, since their object-level
structure also lives outside src/. -/
inductive Value where
  | undefined
  | nullV
  | boolean (b : Bool)
  | integer (n : Int)
  | stringV (s : String)
  | symbol (s : Symbol)
  | object (addr : Nat)
  | arrayObj (elements : List Value)
  | argumentsObject (elements : List Value)
  | typeErrorObj (message : String)

/-- Embeds `BindingStatus` (environment/function_environment_record) as used by
`GcObject::call`: `Lexical` for arrow functions, otherwise `Uninitialized`. -/
inductive BindingStatus where
  | lexical
  | initialized
  | uninitialized
deriving DecidableEq

/-- Modelled from the spec: a function-scoped Environment (the environment
collaborator is not under src/): the function object, an optional this value,
the binding activation state, a parent reference, and named bindings. Bindings
are kept most recent first; a created but not yet initialized binding holds
`none`. -/
structure Environment where
  functionObject : Value
  thisValue : Option Value
  bindingStatus : BindingStatus
  parentEnv : Nat
  bindings : List (String × Option Value)

/-- Modelled from the spec: `new_function_environment` creates a fresh scope
frame with the given function object, this value, parent and activation state,
and no bindings yet. -/
def new_function_environment (functionObject : Value) (thisValue : Option Value)
    (parentEnv : Nat) (status : BindingStatus) : Environment :=
  { functionObject := functionObject, thisValue := thisValue
    bindingStatus := status, parentEnv := parentEnv, bindings := [] }

/-- Modelled from the spec: `create_mutable_binding` adds an uninitialized
binding under the given name. -/
def create_mutable_binding (name : String) (env : Environment) : Environment :=
  { env with bindings := (name, none) :: env.bindings }

/-- Sets the most recently created binding with the given name. -/
def setBinding (name : String) (value : Value) :
    List (String × Option Value) → List (String × Option Value)
  | [] => []
  | (n, v) :: rest =>
    if n = name then (n, some value) :: rest else (n, v) :: setBinding name value rest

/-- Modelled from the spec: `initialize_binding` gives the binding its value. -/
def initialize_binding (name : String) (value : Value) (env : Environment) :
    Environment :=
  { env with bindings := setBinding name value env.bindings }

/-- Binding lookup: the most recently created binding with the given name. -/
def envLookup (name : String) : List (String × Option Value) → Option (Option Value)
  | [] => none
  | (n, v) :: rest => if n = name then some v else envLookup name rest

/-- Embeds the AST `FormalParameter` as used by `GcObject::call`: a binding name
and the flag queried by `is_rest_param()`. -/
structure FormalParameter where
  name : String
  is_rest_param : Bool
deriving DecidableEq

/-- Opaque token for an interpreted function body (the statement list held by
`FunctionBody::Ordinary` and executed through `Executable::run`). -/
structure CodeBlock where
  blockId : Nat
deriving DecidableEq

/-- The interpreter state visible to `GcObject::call`: the active environment
stack (`ctx.realm.environment`). -/
structure Ctx where
  envStack : List Environment

/-- A host native function (the payload of `FunctionBody::BuiltIn`). -/
def NativeFn : Type := Value → List Value → Ctx → Except Value Value × Ctx

/-- Embeds `FunctionBody`: native host code or an interpreted body. -/
inductive FunctionBody where
  | builtIn (f : NativeFn)
  | ordinary (body : CodeBlock)

/-- Embeds `ThisMode` as dispatched in `GcObject::call`: lexical (arrow
functions) versus non-lexical. -/
inductive ThisMode where
  | lexical
  | nonLexical
deriving DecidableEq

/-- Embeds the function descriptor (`builtins::function::Function`) as consumed
by `GcObject::call`: the callable flag behind `is_callable()`, the body, the
this mode, the declared parameters, and the captured environment reference. -/
structure Function where
  callable : Bool
  body : FunctionBody
  this_mode : ThisMode
  params : List FormalParameter
  environment : Nat

/-- Modelled from the spec: `create_unmapped_arguments_object` snapshots the
actual argument list into an unmapped arguments object. -/
def create_unmapped_arguments_object (args : List Value) : Value :=
  Value.argumentsObject args

/-- Modelled from the spec: `Function::add_arguments_to_environment` creates a
mutable binding for the parameter name and initializes it with the value. -/
def add_arguments_to_environment (param : FormalParameter) (value : Value)
    (env : Environment) : Environment :=
  initialize_binding param.name value (create_mutable_binding param.name env)

/-- Modelled from the spec: `Function::add_rest_param` collects every actual
argument from position `i` onward into one array-like value bound to the rest
parameter. -/
def add_rest_param (param : FormalParameter) (i : Nat) (args : List Value)
    (env : Environment) : Environment :=
  initialize_binding param.name (Value.arrayObj (args.drop i))
    (create_mutable_binding param.name env)

/-- Embeds the argument-binding loop of `GcObject::call`: parameters are visited
with their position `i`; a rest parameter consumes the remaining arguments and
stops the loop; any other parameter binds to `args[i]`, or to undefined when no
such argument exists. -/
def bindParams (params : List FormalParameter) (i : Nat) (args : List Value)
    (env : Environment) : Environment :=
  match params with
  | [] => env
  | param :: rest =>
    if param.is_rest_param then add_rest_param param i args env
    else
      bindParams rest (i + 1) args
        (add_arguments_to_environment param (args.getD i Value.undefined) env)

/-- The environment `GcObject::call` builds before pushing: the this binding
selected by the this mode, positional parameter binding, then the unconditional
"arguments" binding. -/
def newCallEnvironment (function : Function) (funcObj : Value) (thisV : Value)
    (args : List Value) : Environment :=
  let env0 := new_function_environment funcObj
      (match function.this_mode with
       | ThisMode.lexical => none
       | ThisMode.nonLexical => some thisV)
      function.environment
      (match function.this_mode with
       | ThisMode.lexical => BindingStatus.lexical
       | ThisMode.nonLexical => BindingStatus.uninitialized)
  let env1 := bindParams function.params 0 args env0
  initialize_binding "arguments" (create_unmapped_arguments_object args)
    (create_mutable_binding "arguments" env1)

/-- Embeds `GcObject::call`: dispatch on the function slot of the borrowed
object (`objFunction` is the `as_function()` view); native bodies run directly;
interpreted bodies get a fresh environment that is pushed, the body runs, and
the environment is popped unconditionally before the result is returned;
non-functions and non-callable functions throw TypeError-class values through
the return channel. `bodyRun` is the statement interpreter. -/
def call (objFunction : Option Function) (funcObj : Value) (thisV : Value)
    (args : List Value) (bodyRun : CodeBlock → Ctx → Except Value Value × Ctx)
    (ctx : Ctx) : Except Value Value × Ctx :=
  match objFunction with
  | some function =>
    if function.callable then
      match function.body with
      | FunctionBody.builtIn f => f thisV args ctx
      | FunctionBody.ordinary body =>
        let local_env := newCallEnvironment function funcObj thisV args
        let ctx1 : Ctx := { envStack := local_env :: ctx.envStack }
        let result := bodyRun body ctx1
        (result.1, { envStack := result.2.envStack.tail })
    else
      (Except.error (Value.typeErrorObj "function object is not callable"), ctx)
  | none => (Except.error (Value.typeErrorObj "not a function"), ctx)

/-- The bindings the loop produces for a rest-free parameter list starting at
position `i`: each name with its positional argument, or undefined. -/
def positionalBindings : List FormalParameter → Nat → List Value →
    List (String × Option Value)
  | [], _, _ => []
  | p :: rest, i, args =>
    (p.name, some (args.getD i Value.undefined)) :: positionalBindings rest (i + 1) args

theorem add_arguments_to_environment_bindings (param : FormalParameter)
    (value : Value) (env : Environment) :
    (add_arguments_to_environment param value env).bindings
      = (param.name, some value) :: env.bindings := by
  simp [add_arguments_to_environment, initialize_binding, create_mutable_binding,
    setBinding]

theorem add_rest_param_bindings (param : FormalParameter) (i : Nat)
    (args : List Value) (env : Environment) :
    (add_rest_param param i args env).bindings
      = (param.name, some (Value.arrayObj (args.drop i))) :: env.bindings := by
  simp [add_rest_param, initialize_binding, create_mutable_binding, setBinding]

theorem bindParams_no_rest (params : List FormalParameter) :
    ∀ (i : Nat) (args : List Value) (env : Environment),
      (∀ p ∈ params, p.is_rest_param = false) →
      (bindParams params i args env).bindings
        = (positionalBindings params i args).reverse ++ env.bindings := by
  induction params with
  | nil => intro i args env _; simp [bindParams, positionalBindings]
  | cons p rest ih =>
    intro i args env h
    have hp : p.is_rest_param = false := h p (by simp)
    rw [bindParams, if_neg (by simp [hp]),
      ih (i + 1) args _ (fun q hq => h q (by simp [hq])),
      add_arguments_to_environment_bindings]
    simp [positionalBindings]

theorem bindParams_rest (pre : List FormalParameter) :
    ∀ (post : List FormalParameter) (restP : FormalParameter) (i : Nat)
      (args : List Value) (env : Environment),
      (∀ p ∈ pre, p.is_rest_param = false) → restP.is_rest_param = true →
      (bindParams (pre ++ restP :: post) i args env).bindings
        = (restP.name, some (Value.arrayObj (args.drop (i + pre.length))))
            :: ((positionalBindings pre i args).reverse ++ env.bindings) := by
  induction pre with
  | nil =>
    intro post restP i args env _ hrest
    rw [List.nil_append, bindParams, if_pos (by simp [hrest]),
      add_rest_param_bindings]
    simp [positionalBindings]
  | cons p rest ih =>
    intro post restP i args env h hrest
    have hp : p.is_rest_param = false := h p (by simp)
    rw [List.cons_append, bindParams, if_neg (by simp [hp]),
      ih post restP (i + 1) args _ (fun q hq => h q (by simp [hq])) hrest,
      add_arguments_to_environment_bindings]
    have hlen : i + 1 + rest.length = i + (p :: rest).length := by
      simp [List.length_cons]; omega
    rw [hlen]
    simp [positionalBindings]

/-- C3: for an interpreted invocation, the environment pushed before the body is
popped on every exit path: provided the body itself keeps the stack depth
balanced, the environment-stack depth after `call` equals its pre-call value,
whether the body runs to completion, returns a value, or propagates a thrown
signal (`bodyRun` is arbitrary, so it covers bodies answering with errors). -/
theorem c3_env_stack_restored (function : Function) (funcObj thisV : Value)
    (args : List Value) (body : CodeBlock)
    (bodyRun : CodeBlock → Ctx → Except Value Value × Ctx) (ctx : Ctx)
    (hcallable : function.callable = true)
    (hbody : function.body = FunctionBody.ordinary body)
    (hbal : ∀ b c, ((bodyRun b c).2.envStack).length = c.envStack.length) :
    ((call (some function) funcObj thisV args bodyRun ctx).2.envStack).length
      = ctx.envStack.length := by
  simp only [call, hcallable, hbody, if_true]
  rw [List.length_tail, hbal]
  simp

/-- A concrete interpreted function used by the call witnesses. -/
def exampleFunction : Function :=
  { callable := true, body := FunctionBody.ordinary ⟨0⟩
    this_mode := ThisMode.nonLexical, params := [], environment := 0 }

/-- A body interpreter that always propagates a thrown signal. -/
def throwingBody : CodeBlock → Ctx → Except Value Value × Ctx :=
  fun _ c => (Except.error (Value.typeErrorObj "thrown by the body"), c)

/-- C3 witness: a concrete interpreted call whose body throws still restores the
environment-stack depth. -/
theorem c3_env_stack_restored_witness :
    ((call (some exampleFunction) Value.undefined Value.undefined []
        throwingBody { envStack := [] }).2.envStack).length
      = ({ envStack := [] } : Ctx).envStack.length :=
  c3_env_stack_restored exampleFunction Value.undefined Value.undefined [] ⟨0⟩
    throwingBody { envStack := [] } rfl rfl (fun _ _ => rfl)

/-- C4: parameter binding is positional and total (a missing actual argument
binds the parameter to undefined, never an error); when the parameter at
position `k` is a rest parameter, the parameters before it bind positionally,
the rest parameter binds to one array-like value holding the arguments from
position `k` onward (empty when fewer than `k` arguments exist), and binding
stops there: parameters after the rest parameter are not bound. -/
theorem c4_parameter_binding (params pre post : List FormalParameter)
    (restP : FormalParameter) (args : List Value) (env : Environment) :
    ((∀ p ∈ params, p.is_rest_param = false) →
        (bindParams params 0 args env).bindings
          = (positionalBindings params 0 args).reverse ++ env.bindings)
      ∧ ((∀ p ∈ pre, p.is_rest_param = false) → restP.is_rest_param = true →
        (bindParams (pre ++ restP :: post) 0 args env).bindings
          = (restP.name, some (Value.arrayObj (args.drop pre.length)))
              :: ((positionalBindings pre 0 args).reverse ++ env.bindings)) := by
  constructor
  · intro h
    exact bindParams_no_rest params 0 args env h
  · intro h hrest
    have := bindParams_rest pre post restP 0 args env h hrest
    simpa using this

/-- A fresh environment used by the binding witnesses. -/
def exampleEnv : Environment :=
  new_function_environment Value.undefined (some Value.undefined) 0
    BindingStatus.uninitialized

/-- C4 witness: a 2-parameter function invoked with 0 arguments binds both
parameters to undefined, and a rest parameter after one declared parameter
receives the remaining arguments as one array-like value, ignoring a parameter
declared after it. -/
theorem c4_parameter_binding_witness :
    (bindParams [⟨"x", false⟩, ⟨"y", false⟩] 0 [] exampleEnv).bindings
        = (positionalBindings [⟨"x", false⟩, ⟨"y", false⟩] 0 []).reverse
            ++ exampleEnv.bindings
      ∧ (bindParams ([⟨"a", false⟩] ++ ⟨"r", true⟩ :: [⟨"z", false⟩]) 0
            [Value.integer 1, Value.integer 2, Value.integer 3] exampleEnv).bindings
          = (("r" : String),
              some (Value.arrayObj
                ([Value.integer 1, Value.integer 2, Value.integer 3].drop
                  [(⟨"a", false⟩ : FormalParameter)].length)))
              :: ((positionalBindings [⟨"a", false⟩] 0
                    [Value.integer 1, Value.integer 2, Value.integer 3]).reverse
                  ++ exampleEnv.bindings) :=
  ⟨(c4_parameter_binding [⟨"x", false⟩, ⟨"y", false⟩] [] [] ⟨"r", true⟩ []
      exampleEnv).1 (by decide),
   (c4_parameter_binding [] [⟨"a", false⟩] [⟨"z", false⟩] ⟨"r", true⟩
      [Value.integer 1, Value.integer 2, Value.integer 3] exampleEnv).2
      (by decide) (by decide)⟩

/-- C5: calling a value with no function slot fails with a TypeError-class value
whose message contains "not a function"; calling a function whose callable flag
is false fails with one whose message contains "not callable"; both failures
are values surfaced through the normal call-return channel, leaving the
interpreter state untouched. -/
theorem c5_uncallable_type_errors (function : Function) (funcObj thisV : Value)
    (args : List Value) (bodyRun : CodeBlock → Ctx → Except Value Value × Ctx)
    (ctx : Ctx) :
    (call none funcObj thisV args bodyRun ctx
        = (Except.error (Value.typeErrorObj "not a function"), ctx)
      ∧ containsSub "not a function" "not a function" = true)
      ∧ (function.callable = false →
        call (some function) funcObj thisV args bodyRun ctx
            = (Except.error
                (Value.typeErrorObj "function object is not callable"), ctx)
          ∧ containsSub "not callable" "function object is not callable" = true) := by
  refine ⟨⟨rfl, by decide⟩, ?_⟩
  intro h
  refine ⟨?_, by decide⟩
  simp [call, h]

/-- C5 witness: the concrete failures for a callee without a function slot and
for a function descriptor whose callable flag is false. -/
theorem c5_uncallable_type_errors_witness :
    (call none Value.undefined Value.undefined [] throwingBody { envStack := [] }
        = (Except.error (Value.typeErrorObj "not a function"),
           ({ envStack := [] } : Ctx))
      ∧ containsSub "not a function" "not a function" = true)
      ∧ (call (some { exampleFunction with callable := false }) Value.undefined
            Value.undefined [] throwingBody { envStack := [] }
          = (Except.error (Value.typeErrorObj "function object is not callable"),
             ({ envStack := [] } : Ctx))
        ∧ containsSub "not callable" "function object is not callable" = true) :=
  ⟨(c5_uncallable_type_errors { exampleFunction with callable := false }
      Value.undefined Value.undefined [] throwingBody { envStack := [] }).1,
   (c5_uncallable_type_errors { exampleFunction with callable := false }
      Value.undefined Value.undefined [] throwingBody { envStack := [] }).2 rfl⟩

/-- C10: every interpreted invocation builds its new environment with a mutable
binding named "arguments" holding the unmapped arguments object snapshotting
the actual arguments; `function` ranges over every this mode, so arrow
functions (lexical this mode) receive the binding too, and `call` pushes
exactly this environment around the body. -/
theorem c10_arguments_binding_unconditional (function : Function)
    (funcObj thisV : Value) (args : List Value) :
    envLookup "arguments" (newCallEnvironment function funcObj thisV args).bindings
        = some (some (create_unmapped_arguments_object args))
      ∧ (∀ (body : CodeBlock)
          (bodyRun : CodeBlock → Ctx → Except Value Value × Ctx) (ctx : Ctx),
          function.callable = true →
          function.body = FunctionBody.ordinary body →
          call (some function) funcObj thisV args bodyRun ctx
            = ((bodyRun body
                  { envStack :=
                      newCallEnvironment function funcObj thisV args
                        :: ctx.envStack }).1,
               { envStack :=
                   (bodyRun body
                     { envStack :=
                         newCallEnvironment function funcObj thisV args
                           :: ctx.envStack }).2.envStack.tail })) := by
  constructor
  · simp [newCallEnvironment, initialize_binding, create_mutable_binding,
      setBinding, envLookup]
  · intro body bodyRun ctx hcallable hbody
    simp [call, hcallable, hbody]

/-- An interpreted arrow function (lexical this mode) with one parameter. -/
def exampleArrowFunction : Function :=
  { callable := true, body := FunctionBody.ordinary ⟨1⟩
    this_mode := ThisMode.lexical, params := [⟨"x", false⟩], environment := 0 }

/-- C10 witness: a concrete arrow-function invocation still carries the
"arguments" binding in the environment `call` pushes around its body. -/
theorem c10_arguments_binding_unconditional_witness :
    envLookup "arguments"
        (newCallEnvironment exampleArrowFunction Value.undefined Value.undefined
          [Value.integer 1, Value.integer 2, Value.integer 3]).bindings
      = some (some (create_unmapped_arguments_object
          [Value.integer 1, Value.integer 2, Value.integer 3]))
      ∧ call (some exampleArrowFunction) Value.undefined Value.undefined
            [Value.integer 1, Value.integer 2, Value.integer 3] throwingBody
            { envStack := [] }
          = ((throwingBody ⟨1⟩
                { envStack :=
                    newCallEnvironment exampleArrowFunction Value.undefined
                      Value.undefined
                      [Value.integer 1, Value.integer 2, Value.integer 3]
                      :: [] }).1,
             { envStack :=
                 (throwingBody ⟨1⟩
                   { envStack :=
                       newCallEnvironment exampleArrowFunction Value.undefined
                         Value.undefined
                         [Value.integer 1, Value.integer 2, Value.integer 3]
                         :: [] }).2.envStack.tail }) :=
  ⟨(c10_arguments_binding_unconditional exampleArrowFunction Value.undefined
      Value.undefined [Value.integer 1, Value.integer 2, Value.integer 3]).1,
   (c10_arguments_binding_unconditional exampleArrowFunction Value.undefined
      Value.undefined [Value.integer 1, Value.integer 2, Value.integer 3]).2
      ⟨1⟩ throwingBody { envStack := [] } rfl rfl⟩

/-- Modelled from the spec: the internal data slot of an object record
(builtins/object/mod.rs is not under src/), as queried by `as_symbol`: either
ordinary or a wrapped Symbol primitive. -/
inductive ObjectData where
  | ordinary
  | symbolData (s : Symbol)

/-- The heap object record as needed by the construction protocol and the
Symbol builtin: a prototype link recorded as an arbitrary value, plus the
internal data slot. -/
structure ObjectRec where
  prototype : Value
  data : ObjectData

/-- The interpreter state visible to `New::run`: the heap of object records. -/
structure ExecState where
  heap : List ObjectRec

/-- Embeds the `PROTOTYPE` field-name constant from builtins/object. -/
def PROTOTYPE : String := "prototype"

/-- A subexpression evaluation step (`Executable::run`): transforms the state
and yields a value or propagates a thrown value. -/
def ExprRun : Type := ExecState → Except Value Value × ExecState

/-- Embeds `Value::new_object(None)`: allocates a fresh blank object record and
returns a handle to it. -/
def new_object (st : ExecState) : Value × ExecState :=
  (Value.object st.heap.length,
   { heap := st.heap
       ++ [{ prototype := Value.undefined, data := ObjectData.ordinary }] })

/-- Sets the prototype link of the record at the given heap address. -/
def setPrototypeInHeap (addr : Nat) (proto : Value) :
    List ObjectRec → List ObjectRec
  | [] => []
  | o :: rest =>
    match addr with
    | 0 => { o with prototype := proto } :: rest
    | a + 1 => o :: setPrototypeInHeap a proto rest

/-- Embeds `Object::set_prototype` through the mutable borrow taken in
`New::run`: the given value is recorded as the prototype link, unvalidated. -/
def set_prototype (addr : Nat) (proto : Value) (st : ExecState) : ExecState :=
  { heap := setPrototypeInHeap addr proto st.heap }

/-- Embeds the argument loop of `New::run`: each argument expression runs left
to right, a thrown value stopping the loop and propagating. -/
def runArgs (args : List ExprRun) (st : ExecState) :
    Except Value (List Value) × ExecState :=
  match args with
  | [] => (Except.ok [], st)
  | a :: rest =>
    match a st with
    | (Except.error e, st1) => (Except.error e, st1)
    | (Except.ok v, st1) =>
      match runArgs rest st1 with
      | (Except.error e, st2) => (Except.error e, st2)
      | (Except.ok vs, st2) => (Except.ok (v :: vs), st2)

/-- Embeds `impl Executable for New` (`fn run`): evaluate the callee, evaluate
the arguments left to right, allocate a blank object, set its prototype to the
callee "prototype" field as-is, then dispatch on the callee shape: an object
callee receives the construct call with the fresh object as receiver, any other
callee makes the expression evaluate to undefined. `get_field`
(`Value::get_field`) and `construct` (`GcObject::construct`) live outside src/
and enter as oracles. -/
def newRun (expr : ExprRun) (args : List ExprRun)
    (get_field : Value → String → Value)
    (construct : Nat → Value → List Value → ExprRun) (st : ExecState) :
    Except Value Value × ExecState :=
  match expr st with
  | (Except.error e, st1) => (Except.error e, st1)
  | (Except.ok func_object, st1) =>
    match runArgs args st1 with
    | (Except.error e, st2) => (Except.error e, st2)
    | (Except.ok v_args, st2) =>
      let allocated := new_object st2
      let thisValue := allocated.1
      let st3 := allocated.2
      let st4 :=
        match thisValue with
        | Value.object addr =>
          set_prototype addr (get_field func_object PROTOTYPE) st3
        | _ => st3
      match func_object with
      | Value.object addr => construct addr thisValue v_args st4
      | _ => (Except.ok Value.undefined, st4)

theorem setPrototypeInHeap_fresh (l : List ObjectRec) (x : ObjectRec)
    (p : Value) :
    setPrototypeInHeap l.length p (l ++ [x]) = l ++ [{ x with prototype := p }] := by
  induction l with
  | nil => rfl
  | cons o rest ih => simp [setPrototypeInHeap, ih]

/-- C6: for every new-expression, the callee runs first and a thrown value from
it propagates unchanged with no argument evaluated and nothing allocated;
argument expressions run left to right with early propagation; on success, one
fresh object is allocated whose prototype link is the value of the callee
"prototype" field recorded as-is (any value, unvalidated), and then an
object-shaped callee receives the construct call with the fresh object as
receiver while any other callee value makes the whole expression evaluate to
undefined instead of raising an error. -/
theorem c6_new_expression (expr a : ExprRun) (args : List ExprRun)
    (get_field : Value → String → Value)
    (construct : Nat → Value → List Value → ExprRun)
    (st st1 st2 : ExecState) (e v func_object : Value) (v_args : List Value)
    (addr : Nat) :
    (expr st = (Except.error e, st1) →
        newRun expr args get_field construct st = (Except.error e, st1))
      ∧ (a st = (Except.error e, st1) →
        runArgs (a :: args) st = (Except.error e, st1))
      ∧ (a st = (Except.ok v, st1) → runArgs args st1 = (Except.ok v_args, st2) →
        runArgs (a :: args) st = (Except.ok (v :: v_args), st2))
      ∧ (expr st = (Except.ok func_object, st1) →
        runArgs args st1 = (Except.error e, st2) →
        newRun expr args get_field construct st = (Except.error e, st2))
      ∧ (expr st = (Except.ok (Value.object addr), st1) →
        runArgs args st1 = (Except.ok v_args, st2) →
        newRun expr args get_field construct st
          = construct addr (Value.object st2.heap.length) v_args
              { heap := st2.heap
                  ++ [{ prototype := get_field (Value.object addr) PROTOTYPE,
                        data := ObjectData.ordinary }] })
      ∧ (expr st = (Except.ok func_object, st1) →
        (∀ a2, func_object ≠ Value.object a2) →
        runArgs args st1 = (Except.ok v_args, st2) →
        newRun expr args get_field construct st
          = (Except.ok Value.undefined,
             { heap := st2.heap
                 ++ [{ prototype := get_field func_object PROTOTYPE,
                       data := ObjectData.ordinary }] })) := by
  refine ⟨?_, ?_, ?_, ?_, ?_, ?_⟩
  · intro h; simp [newRun, h]
  · intro h; simp [runArgs, h]
  · intro h1 h2; simp [runArgs, h1, h2]
  · intro h1 h2; simp [newRun, h1, h2]
  · intro h1 h2
    simp [newRun, h1, h2, new_object, set_prototype, setPrototypeInHeap_fresh]
  · intro h1 hno h2
    match func_object, hno with
    | Value.undefined, _ =>
      simp [newRun, h1, h2, new_object, set_prototype, setPrototypeInHeap_fresh]
    | Value.nullV, _ =>
      simp [newRun, h1, h2, new_object, set_prototype, setPrototypeInHeap_fresh]
    | Value.boolean b, _ =>
      simp [newRun, h1, h2, new_object, set_prototype, setPrototypeInHeap_fresh]
    | Value.integer n, _ =>
      simp [newRun, h1, h2, new_object, set_prototype, setPrototypeInHeap_fresh]
    | Value.stringV s, _ =>
      simp [newRun, h1, h2, new_object, set_prototype, setPrototypeInHeap_fresh]
    | Value.symbol s, _ =>
      simp [newRun, h1, h2, new_object, set_prototype, setPrototypeInHeap_fresh]
    | Value.object a2, hno => exact absurd rfl (hno a2)
    | Value.arrayObj l, _ =>
      simp [newRun, h1, h2, new_object, set_prototype, setPrototypeInHeap_fresh]
    | Value.argumentsObject l, _ =>
      simp [newRun, h1, h2, new_object, set_prototype, setPrototypeInHeap_fresh]
    | Value.typeErrorObj m, _ =>
      simp [newRun, h1, h2, new_object, set_prototype, setPrototypeInHeap_fresh]

/-- An expression step yielding a fixed value without touching the state. -/
def pureExpr (v : Value) : ExprRun := fun st => (Except.ok v, st)

/-- An expression step throwing a fixed value without touching the state. -/
def throwExpr (v : Value) : ExprRun := fun st => (Except.error v, st)

/-- A construct oracle answering with the receiver it was handed. -/
def returnReceiver : Nat → Value → List Value → ExprRun :=
  fun _ thisValue _ st => (Except.ok thisValue, st)

/-- A field oracle answering a non-object value for every field read, to show
the prototype link is recorded unvalidated. -/
def nonObjectField : Value → String → Value := fun _ _ => Value.integer 42

/-- C6 witness: concretely, a throwing callee propagates; a successful
object-shaped callee leads to a construct call on a fresh object whose
prototype link received the non-object field value as-is; a numeric callee
makes the expression evaluate to undefined. -/
theorem c6_new_expression_witness :
    (newRun (throwExpr (Value.stringV "bad")) [pureExpr (Value.integer 7)]
        nonObjectField returnReceiver { heap := [] }
      = (Except.error (Value.stringV "bad"), { heap := [] }))
      ∧ (newRun (pureExpr (Value.object 0)) [pureExpr (Value.integer 7)]
          nonObjectField returnReceiver { heap := [] }
        = returnReceiver 0 (Value.object 0) [Value.integer 7]
            { heap := [{ prototype := nonObjectField (Value.object 0) PROTOTYPE,
                         data := ObjectData.ordinary }] })
      ∧ (newRun (pureExpr (Value.integer 5)) [] nonObjectField returnReceiver
          { heap := [] }
        = (Except.ok Value.undefined,
           { heap := [{ prototype := nonObjectField (Value.integer 5) PROTOTYPE,
                        data := ObjectData.ordinary }] })) :=
  ⟨(c6_new_expression (throwExpr (Value.stringV "bad"))
      (pureExpr (Value.integer 7)) [pureExpr (Value.integer 7)] nonObjectField
      returnReceiver { heap := [] } { heap := [] } { heap := [] }
      (Value.stringV "bad") Value.undefined Value.undefined [] 0).1 rfl,
   (c6_new_expression (pureExpr (Value.object 0)) (pureExpr (Value.integer 7))
      [pureExpr (Value.integer 7)] nonObjectField returnReceiver { heap := [] }
      { heap := [] } { heap := [] } Value.undefined Value.undefined
      Value.undefined [Value.integer 7] 0).2.2.2.2.1 rfl rfl,
   (c6_new_expression (pureExpr (Value.integer 5)) (pureExpr (Value.integer 5))
      [] nonObjectField returnReceiver { heap := [] } { heap := [] }
      { heap := [] } Value.undefined Value.undefined (Value.integer 5) []
      0).2.2.2.2.2 rfl (fun a2 h => by cases h) rfl⟩

/-- Embeds `Object::as_symbol` as used by `this_symbol_value`: the wrapped
Symbol primitive, when the record holds one. -/
def as_symbol (o : ObjectRec) : Option Symbol :=
  match o.data with
  | ObjectData.symbolData s => some s
  | ObjectData.ordinary => none

/-- Embeds `Symbol::this_symbol_value`: a Symbol primitive yields itself; an
object whose borrowed record wraps a Symbol yields that Symbol; every other
receiver throws a TypeError-class value. -/
def this_symbol_value (heap : List ObjectRec) (value : Value) :
    Except Value Symbol :=
  match value with
  | Value.symbol s => Except.ok s
  | Value.object addr =>
    match heap[addr]? >>= as_symbol with
    | some s => Except.ok s
    | none => Except.error (Value.typeErrorObj "\x27this\x27 is not a Symbol")
  | _ => Except.error (Value.typeErrorObj "\x27this\x27 is not a Symbol")

/-- Embeds `Symbol::to_string` (`Symbol.prototype.toString`): resolve the
receiver to a Symbol, then render "Symbol(d)" with the description or the empty
string. -/
def symbol_to_string (heap : List ObjectRec) (thisValue : Value) :
    Except Value Value :=
  match this_symbol_value heap thisValue with
  | Except.error e => Except.error e
  | Except.ok symbol =>
    Except.ok (Value.stringV ("Symbol(" ++ (symbol.description.getD "") ++ ")"))

/-- C9: Symbol.prototype.toString succeeds on a Symbol primitive or an object
wrapping one, returning "Symbol(d)" with the description or the empty string
when there is none; on every other receiver it fails, through the return
channel, with a TypeError-class value whose message contains "not a Symbol". -/
theorem c9_symbol_to_string (heap : List ObjectRec) (v : Value) (addr : Nat)
    (o : ObjectRec) (s : Symbol) :
    (symbol_to_string heap (Value.symbol s)
        = Except.ok (Value.stringV ("Symbol(" ++ (s.description.getD "") ++ ")")))
      ∧ (heap[addr]? = some o → o.data = ObjectData.symbolData s →
        symbol_to_string heap (Value.object addr)
          = Except.ok
              (Value.stringV ("Symbol(" ++ (s.description.getD "") ++ ")")))
      ∧ (heap[addr]? = some o → as_symbol o = none →
        symbol_to_string heap (Value.object addr)
          = Except.error (Value.typeErrorObj "\x27this\x27 is not a Symbol"))
      ∧ ((∀ s2, v ≠ Value.symbol s2) → (∀ a2, v ≠ Value.object a2) →
        symbol_to_string heap v
          = Except.error (Value.typeErrorObj "\x27this\x27 is not a Symbol"))
      ∧ containsSub "not a Symbol" "\x27this\x27 is not a Symbol" = true := by
  refine ⟨rfl, ?_, ?_, ?_, by decide⟩
  · intro h1 h2
    simp [symbol_to_string, this_symbol_value, h1, as_symbol, h2]
  · intro h1 h2
    simp [symbol_to_string, this_symbol_value, h1, h2]
  · intro h1 h2
    match v with
    | Value.undefined => rfl
    | Value.nullV => rfl
    | Value.boolean b => rfl
    | Value.integer n => rfl
    | Value.stringV s2 => rfl
    | Value.symbol s2 => exact absurd rfl (h1 s2)
    | Value.object a2 => exact absurd rfl (h2 a2)
    | Value.arrayObj l => rfl
    | Value.argumentsObject l => rfl
    | Value.typeErrorObj m => rfl

/-- C9 witness: a Symbol without description renders "Symbol()", one with
description "foo" renders "Symbol(foo)", an object wrapping a Symbol succeeds,
and a numeric receiver fails with the TypeError-class value whose message
contains "not a Symbol". -/
theorem c9_symbol_to_string_witness :
    (symbol_to_string [] (Value.symbol ⟨none, 0⟩)
        = Except.ok (Value.stringV "Symbol()"))
      ∧ (symbol_to_string [] (Value.symbol ⟨some "foo", 1⟩)
        = Except.ok (Value.stringV "Symbol(foo)"))
      ∧ (symbol_to_string
            [{ prototype := Value.undefined,
               data := ObjectData.symbolData ⟨some "bar", 2⟩ }]
            (Value.object 0)
          = Except.ok (Value.stringV "Symbol(bar)"))
      ∧ (symbol_to_string [] (Value.integer 3)
          = Except.error (Value.typeErrorObj "\x27this\x27 is not a Symbol"))
      ∧ containsSub "not a Symbol" "\x27this\x27 is not a Symbol" = true :=
  ⟨(c9_symbol_to_string [] Value.undefined 0
      { prototype := Value.undefined, data := ObjectData.ordinary } ⟨none, 0⟩).1,
   (c9_symbol_to_string [] Value.undefined 0
      { prototype := Value.undefined, data := ObjectData.ordinary }
      ⟨some "foo", 1⟩).1,
   (c9_symbol_to_string
      [{ prototype := Value.undefined,
         data := ObjectData.symbolData ⟨some "bar", 2⟩ }] Value.undefined 0
      { prototype := Value.undefined,
        data := ObjectData.symbolData ⟨some "bar", 2⟩ } ⟨some "bar", 2⟩).2.1 rfl
      rfl,
   (c9_symbol_to_string [] (Value.integer 3) 0
      { prototype := Value.undefined, data := ObjectData.ordinary }
      ⟨none, 0⟩).2.2.2.1 (fun s2 h => by cases h) (fun a2 h => by cases h),
   (c9_symbol_to_string [] Value.undefined 0
      { prototype := Value.undefined, data := ObjectData.ordinary }
      ⟨none, 0⟩).2.2.2.2⟩

end Runtime

namespace Cell

/-- Modelled from the spec: the borrow state of the `gc::GcCell` wrapped by
`GcObject` — unused, shared by `count` readers (`count` is at least 1 in every
reachable reading state), or exclusively borrowed. -/
inductive BorrowFlag where
  | unused
  | reading (count : Nat)
  | writing
deriving DecidableEq

/-- A runtime-borrow-checked heap cell: the borrow-state flag plus the stored
object record (abstract here, since borrow bookkeeping never touches it). -/
structure GcCellM (α : Type) where
  flag : BorrowFlag
  value : α
deriving DecidableEq

/-- Embeds `BorrowError` from gcobject.rs (returned by `try_borrow`). -/
inductive BorrowError where
  | busy
deriving DecidableEq

/-- Embeds `BorrowMutError` from gcobject.rs (returned by `try_borrow_mut`). -/
inductive BorrowMutError where
  | busy
deriving DecidableEq

/-- Embeds `GcObject::try_borrow`: fails with a typed error while an exclusive
borrow is outstanding, otherwise registers one more shared borrow. -/
def try_borrow {α : Type} (c : GcCellM α) : Except BorrowError (GcCellM α) :=
  match c.flag with
  | BorrowFlag.writing => Except.error BorrowError.busy
  | BorrowFlag.unused => Except.ok { c with flag := BorrowFlag.reading 1 }
  | BorrowFlag.reading n => Except.ok { c with flag := BorrowFlag.reading (n + 1) }

/-- Embeds `GcObject::try_borrow_mut`: fails with a typed error while any
borrow is outstanding, otherwise takes the exclusive borrow. -/
def try_borrow_mut {α : Type} (c : GcCellM α) :
    Except BorrowMutError (GcCellM α) :=
  match c.flag with
  | BorrowFlag.unused => Except.ok { c with flag := BorrowFlag.writing }
  | _ => Except.error BorrowMutError.busy

/-- Outcome of the unchecked borrow tier: success, or the unrecoverable
invariant failure raised by the `expect` calls in gcobject.rs. -/
inductive UncheckedResult (α : Type) where
  | ok (c : α)
  | invariantFailure (message : String)
deriving DecidableEq

/-- Embeds `GcObject::borrow`: the unchecked tier over `try_borrow`. -/
def borrow {α : Type} (c : GcCellM α) : UncheckedResult (GcCellM α) :=
  match try_borrow c with
  | Except.ok r => UncheckedResult.ok r
  | Except.error _ =>
    UncheckedResult.invariantFailure "Object already mutably borrowed"

/-- Embeds `GcObject::borrow_mut`: the unchecked tier over `try_borrow_mut`. -/
def borrow_mut {α : Type} (c : GcCellM α) : UncheckedResult (GcCellM α) :=
  match try_borrow_mut c with
  | Except.ok r => UncheckedResult.ok r
  | Except.error _ => UncheckedResult.invariantFailure "Object already borrowed"

/-- Releasing one shared borrow guard (guard drop): one fewer reader. -/
def release_shared {α : Type} (c : GcCellM α) : GcCellM α :=
  match c.flag with
  | BorrowFlag.reading 1 => { c with flag := BorrowFlag.unused }
  | BorrowFlag.reading (n + 2) => { c with flag := BorrowFlag.reading (n + 1) }
  | _ => c

/-- Releasing the exclusive borrow guard (guard drop). -/
def release_mut {α : Type} (c : GcCellM α) : GcCellM α :=
  match c.flag with
  | BorrowFlag.writing => { c with flag := BorrowFlag.unused }
  | _ => c

/-- C7: while the exclusive borrow is outstanding every borrow attempt fails —
as a typed error value in the fallible tier and as an unrecoverable invariant
failure in the unchecked tier — until release returns the cell to unused; from
the unused state both borrows succeed; shared borrows stack while making
`try_borrow_mut` fail; and no borrow operation changes anything beyond the
borrow flag (the stored record is untouched). -/
theorem c7_borrow_discipline (α : Type) (c : GcCellM α) (n : Nat) :
    (c.flag = BorrowFlag.writing →
        try_borrow c = Except.error BorrowError.busy
          ∧ try_borrow_mut c = Except.error BorrowMutError.busy
          ∧ borrow c
              = UncheckedResult.invariantFailure "Object already mutably borrowed"
          ∧ borrow_mut c
              = UncheckedResult.invariantFailure "Object already borrowed"
          ∧ release_mut c = { c with flag := BorrowFlag.unused })
      ∧ (c.flag = BorrowFlag.unused →
        try_borrow c = Except.ok { c with flag := BorrowFlag.reading 1 }
          ∧ try_borrow_mut c = Except.ok { c with flag := BorrowFlag.writing })
      ∧ (c.flag = BorrowFlag.reading (n + 1) →
        try_borrow c = Except.ok { c with flag := BorrowFlag.reading (n + 2) }
          ∧ try_borrow_mut c = Except.error BorrowMutError.busy)
      ∧ (∀ r, try_borrow c = Except.ok r → r.value = c.value)
      ∧ (∀ r, try_borrow_mut c = Except.ok r → r.value = c.value) := by
  obtain ⟨f, x⟩ := c
  refine ⟨?_, ?_, ?_, ?_, ?_⟩
  · intro h
    subst h
    exact ⟨rfl, rfl, rfl, rfl, rfl⟩
  · intro h
    subst h
    exact ⟨rfl, rfl⟩
  · intro h
    subst h
    exact ⟨rfl, rfl⟩
  · intro r h
    cases f <;> simp [try_borrow] at h <;> simp [← h]
  · intro r h
    cases f <;> simp [try_borrow_mut] at h <;> simp [← h]

/-- C7 witness: concrete cells in the exclusively borrowed, unused, and shared
states exhibit the discipline. -/
theorem c7_borrow_discipline_witness :
    (try_borrow ({ flag := BorrowFlag.writing, value := 7 } : GcCellM Nat)
        = Except.error BorrowError.busy
      ∧ try_borrow_mut ({ flag := BorrowFlag.writing, value := 7 } : GcCellM Nat)
          = Except.error BorrowMutError.busy
      ∧ borrow ({ flag := BorrowFlag.writing, value := 7 } : GcCellM Nat)
          = UncheckedResult.invariantFailure "Object already mutably borrowed"
      ∧ borrow_mut ({ flag := BorrowFlag.writing, value := 7 } : GcCellM Nat)
          = UncheckedResult.invariantFailure "Object already borrowed"
      ∧ release_mut ({ flag := BorrowFlag.writing, value := 7 } : GcCellM Nat)
          = { flag := BorrowFlag.unused, value := 7 })
      ∧ (try_borrow ({ flag := BorrowFlag.unused, value := 7 } : GcCellM Nat)
          = Except.ok { flag := BorrowFlag.reading 1, value := 7 }
        ∧ try_borrow_mut ({ flag := BorrowFlag.unused, value := 7 } : GcCellM Nat)
            = Except.ok { flag := BorrowFlag.writing, value := 7 })
      ∧ (try_borrow ({ flag := BorrowFlag.reading 2, value := 7 } : GcCellM Nat)
          = Except.ok { flag := BorrowFlag.reading 3, value := 7 }
        ∧ try_borrow_mut ({ flag := BorrowFlag.reading 2, value := 7 } : GcCellM Nat)
            = Except.error BorrowMutError.busy) :=
  ⟨(c7_borrow_discipline Nat { flag := BorrowFlag.writing, value := 7 } 0).1 rfl,
   (c7_borrow_discipline Nat { flag := BorrowFlag.unused, value := 7 } 0).2.1 rfl,
   (c7_borrow_discipline Nat { flag := BorrowFlag.reading 2, value := 7 }
      1).2.2.1 rfl⟩

end Cell

namespace Gc

/-- Embeds `GcObject` as an allocation handle (`Gc<GcCell<Object>>`): the
address identifies the allocation; cloned handles carry the same address. -/
structure GcObject where
  addr : Nat
deriving DecidableEq

/-- Embeds `Clone` on `GcObject`: copies the handle, sharing the allocation. -/
def clone (o : GcObject) : GcObject := o

/-- A heap of allocations; the payload type stands for the object record. -/
structure Heap (α : Type) where
  cells : List α

/-- Embeds `GcObject::new` over `Gc::new(GcCell::new(object))`: a fresh
allocation holding the record, with a handle to it. -/
def new {α : Type} (h : Heap α) (record : α) : GcObject × Heap α :=
  ({ addr := h.cells.length }, { cells := h.cells ++ [record] })

/-- Embeds `GcObject::equals` (`std::ptr::eq` on the allocations). -/
def equals (lhs rhs : GcObject) : Bool := lhs.addr == rhs.addr

/-- C8: identity equality holds exactly between handles to the same allocation,
a handle equals any clone of itself, and two allocations of the same record
content — structurally identical but separately allocated — compare unequal:
`equals` never consults the stored records. -/
theorem c8_identity_equality (α : Type) (a b : GcObject) (h : Heap α) (r : α) :
    (equals a b = true ↔ a.addr = b.addr)
      ∧ equals (clone a) a = true
      ∧ equals (new h r).1 (new (new h r).2 r).1 = false := by
  refine ⟨?_, ?_, ?_⟩
  · simp [equals]
  · simp [equals, clone]
  · simp [equals, new]

end Gc

end Boa
